import Mathlib

/-!
Verification of the PDF-to-PNG conversion module `src/app/lib/pdf2img-cdn.ts`.

Shallow embedding. The module wraps an external rendering engine (pdf.js) and
the browser DOM; every external effect is an oracle field of an `Env` record
(outcome of the local dynamic imports, of the CDN script load, of the byte
buffer read, of document parsing, of page rendering, of blob encoding). The
module functions are translated as pure functions over `Env`; a thrown
exception is an `Except.error` carrying the message, and the outer
`try`/`catch` of `convertPdfToImage` is the final `match` normalizing the
error into the result record. The single-flight CDN loader is additionally
modelled as a step function on its module-level mutable state
(`window.pdfjsLib`, `loadPromise`, `isLoading`).
-/

/-- Browser `File`-like input: `name`, MIME `type`, byte `size`
(src/app/lib/pdf2img-cdn.ts, callers pass a `File`). -/
structure FileLike where
  name : String
  type : String
  size : Nat
deriving DecidableEq, Repr

/-- The result record (interface `PdfConversionResult`, lines 1-5):
`imageUrl : string`, `file : File | null`, `error?: string`.
The optional `error` and nullable `file` are `Option`s. -/
structure PdfConversionResult where
  imageUrl : String
  file : Option FileLike
  error : Option String
deriving DecidableEq, Repr

/-- Oracle record for the external world: each field is the outcome the
environment hands back at the corresponding suspension point of
`convertPdfToImage`. `getDocument` yields the parsed document's page count,
`blob` the encoded blob's size (`none` models a null blob from
`canvas.toBlob`). -/
structure Env where
  stdImport : Except String Unit
  buildImport : Except String Unit
  cdnLoad : Except String Unit
  arrayBuffer : Except String Unit
  getDocument : Except String Nat
  getPage : Except String Unit
  getContext : Bool
  render : Except String Unit
  blob : Option Nat

/-- Mutable module-level state of the CDN loader (lines 14-15 and
`window.pdfjsLib`): the cached library, the memoized in-flight promise, and
the `isLoading` flag. Library and promise identities are modelled as `Nat`. -/
structure LoaderState where
  pdfjsLib : Option Nat
  loadPromise : Option Nat
  isLoading : Bool
deriving DecidableEq, Repr

/-- What a call to `loadPdfJsFromCDN` hands back: either the already-cached
library (the early `return window.pdfjsLib`) or a pending promise. -/
inductive CDNOutcome where
  | resolvedLib (lib : Nat)
  | pending (promiseId : Nat)
deriving DecidableEq, Repr

/-- One call to `loadPdfJsFromCDN` (lines 17-66) as a step on the loader
state. Returns the outcome, the new state, and whether this call injected a
CDN `<script>` element (line 62). Control flow from the source: if
`window.pdfjsLib` is set, return it (lines 18-20); else if `loadPromise` is
set, return that same promise (line 22); else set `isLoading`, create and
inject the script, memoize and return the fresh promise (lines 24-65). -/
def loadPdfJsFromCDN (s : LoaderState) (freshPromiseId : Nat) :
    CDNOutcome × LoaderState × Bool :=
  match s.pdfjsLib with
  | some lib => (CDNOutcome.resolvedLib lib, s, false)
  | none =>
    match s.loadPromise with
    | some p => (CDNOutcome.pending p, s, false)
    | none =>
      (CDNOutcome.pending freshPromiseId,
        ⟨none, some freshPromiseId, true⟩, true)

/-- Value-level outcome of `loadPdfJsLocal` (lines 68-94): try the standard
dynamic load of pdfjs-dist; on failure (the caught error is discarded, line
77) try the build-path load; the outer `try`/`catch` (lines 90-93) rethrows
whatever escaped, so the thrown error is the build-path one. -/
def loadPdfJsLocal (stdImport buildImport : Except String Unit) :
    Except String Unit :=
  match stdImport with
  | Except.ok _ => Except.ok ()
  | Except.error _ => buildImport

/-- Value-level outcome of `loadPdfJs` (lines 96-109): local first; on local
failure try the CDN; when both fail, throw the combined message of line 106.
`cdnLoad` is the outcome of the CDN attempt. -/
def loadPdfJs (stdImport buildImport cdnLoad : Except String Unit) :
    Except String Unit :=
  match loadPdfJsLocal stdImport buildImport with
  | Except.ok _ => Except.ok ()
  | Except.error localError =>
    match cdnLoad with
    | Except.ok _ => Except.ok ()
    | Except.error cdnError =>
      Except.error
        ("PDF.js loading failed: Local: " ++ localError ++ ", CDN: " ++ cdnError)

/-- Message of the JavaScript TypeError thrown by `file.name` on a null
`file` at the `console.log` of line 115 (V8 wording, the quotes around the
property name elided). This access happens BEFORE the `if (!file)` check of
line 118, so for a null/undefined argument the `"No file provided"` branch is
unreachable; the TypeError is caught by the outer handler instead. -/
def nullNameAccessMessage : String :=
  "Cannot read properties of null (reading name)"

/-- Output-name computation of line 195:
`file.name.replace(/\.pdf$/i, "")` — strip one case-insensitive trailing
`.pdf`; anything else is left intact. Modelled at the character-list level:
the regex matches iff the lowercased name ends with `.pdf`, and the
replacement drops those four characters. -/
def stripPdfExt (name : String) : String :=
  if (name.data.map Char.toLower).reverse.take 4 = ['f', 'd', 'p', '.'] then
    String.mk ((name.data.reverse.drop 4).reverse)
  else name

/-- Name of the produced image file (line 196): stripped base plus `.png`. -/
def outputName (name : String) : String :=
  stripPdfExt name ++ ".png"

/-- Browser API `URL.createObjectURL` (line 202), modelled by the blob's
identity: it always returns a non-empty `blob:` URL. -/
def createObjectURL (blobSize : Nat) : String :=
  "blob:" ++ toString blobSize

/-- Validation prologue of `convertPdfToImage` (lines 115-132). A `none`
input throws at the logging line 115 (property access on null) before the
`if (!file)` check is reached, so that check is dead for a null argument;
then: wrong MIME type (line 122), empty file (line 126), size above
50 * 1024 * 1024 bytes (line 130). -/
def validateFile (file : Option FileLike) : Except String FileLike :=
  match file with
  | none => Except.error nullNameAccessMessage
  | some f =>
    if f.type ≠ "application/pdf" then
      Except.error ("Invalid file type: " ++ f.type ++ ". Expected: application/pdf")
    else if f.size = 0 then
      Except.error "File is empty"
    else if f.size > 50 * 1024 * 1024 then
      Except.error "File is too large (max 50MB)"
    else
      Except.ok f

/-- Body of the `try` block of `convertPdfToImage` up to the completed render
(lines 114-186): validation, engine load, buffer read, document parse,
zero-page check (line 149), first-page fetch, 2D-context check (line 163),
render. Returns the validated input file on success; any throw is the
`Except.error` carrying its message. -/
def convertSteps (env : Env) (file : Option FileLike) : Except String FileLike :=
  match validateFile file with
  | Except.error e => Except.error e
  | Except.ok f =>
    match loadPdfJs env.stdImport env.buildImport env.cdnLoad with
    | Except.error e => Except.error e
    | Except.ok _ =>
      match env.arrayBuffer with
      | Except.error e => Except.error e
      | Except.ok _ =>
        match env.getDocument with
        | Except.error e => Except.error e
        | Except.ok numPages =>
          if numPages = 0 then Except.error "PDF has no pages"
          else
            match env.getPage with
            | Except.error e => Except.error e
            | Except.ok _ =>
              if env.getContext = false then
                Except.error "Failed to get 2D context from canvas"
              else
                match env.render with
                | Except.error e => Except.error e
                | Except.ok _ => Except.ok f

/-- The error-shaped result produced by the `catch` handler (lines 218-226)
and by the empty-blob branch (lines 205-212): empty URL, null file, message. -/
def errorResult (e : String) : PdfConversionResult :=
  ⟨"", none, some e⟩

/-- Whole of `convertPdfToImage` (lines 111-227). After a successful render,
`canvas.toBlob` hands back the blob: if it is non-null and non-empty
(line 192) the success result is built — a `File` named
`<stripped base>.png` of MIME `image/png` whose size is the blob's size, and
an object URL (lines 195-204); otherwise the empty-blob error result is
resolved (lines 205-212). Any throw earlier is normalized by the `catch`
handler into `errorResult` (lines 218-226). -/
def convertPdfToImage (env : Env) (file : Option FileLike) : PdfConversionResult :=
  match convertSteps env file with
  | Except.error e => errorResult e
  | Except.ok f =>
    match env.blob with
    | some b =>
      if b > 0 then
        ⟨createObjectURL b, some ⟨outputName f.name, "image/png", b⟩, none⟩
      else errorResult "Failed to create image blob or blob is empty"
    | none => errorResult "Failed to create image blob or blob is empty"

/-- Environment in which every external step succeeds: a one-page document
and a one-byte encoded blob. -/
def envOk : Env :=
  ⟨Except.ok (), Except.ok (), Except.ok (), Except.ok (), Except.ok 1,
    Except.ok (), true, Except.ok (), some 1⟩

/-- Environment in which everything succeeds except encoding: `toBlob` hands
back null. -/
def envNoBlob : Env :=
  ⟨Except.ok (), Except.ok (), Except.ok (), Except.ok (), Except.ok 1,
    Except.ok (), true, Except.ok (), none⟩

/-- A well-formed sample input file. -/
def samplePdf : FileLike :=
  ⟨"resume.pdf", "application/pdf", 1024⟩

/-- Helper: modelled object URLs are never the empty string. -/
theorem createObjectURL_ne_empty (n : Nat) : createObjectURL n ≠ "" := by
  intro h
  have h2 := congrArg String.length h
  rw [createObjectURL, String.length_append] at h2
  simp at h2
  exact absurd h2.1 (by decide)

/-- Claim C1: `convertPdfToImage` never throws: every throwing failure path
(validation, engine load, parse, render) is caught and normalized into a
result whose `error` field carries the thrown message, and the non-throwing
encode-failure path (null or empty blob) also resolves to a result with
`error` set. -/
theorem convert_never_throws :
    (∀ (env : Env) (file : Option FileLike) (e : String),
        convertSteps env file = Except.error e →
        convertPdfToImage env file = errorResult e) ∧
    (∀ (env : Env) (file : Option FileLike),
        (∀ b, env.blob = some b → b = 0) →
        (convertPdfToImage env file).error.isSome) := by
  refine ⟨?_, ?_⟩
  · intro env file e h
    simp [convertPdfToImage, h]
  · intro env file hb
    unfold convertPdfToImage
    cases hs : convertSteps env file with
    | error e => simp [errorResult]
    | ok f =>
      cases hblob : env.blob with
      | none => simp [errorResult]
      | some b =>
        have hb0 := hb b hblob
        subst hb0
        simp [errorResult]

/-- Witness for C1: a null input resolves to the caught TypeError message,
and a null blob after a fully successful pipeline still yields `error` set. -/
theorem convert_never_throws_witness :
    convertPdfToImage envOk none = errorResult nullNameAccessMessage ∧
    (convertPdfToImage envNoBlob (some samplePdf)).error.isSome :=
  ⟨convert_never_throws.1 envOk none nullNameAccessMessage rfl,
   convert_never_throws.2 envNoBlob (some samplePdf)
     (by intro b h; simp [envNoBlob] at h)⟩

/-- Claim C2: every result satisfies exactly one of (`file` non-null and
`imageUrl` non-empty) or (`error` present); never are both absent. -/
theorem convert_result_invariant (env : Env) (file : Option FileLike) :
    (convertPdfToImage env file).error = none ↔
      (convertPdfToImage env file).file ≠ none ∧
      (convertPdfToImage env file).imageUrl ≠ "" := by
  unfold convertPdfToImage
  cases convertSteps env file with
  | error e => simp [errorResult]
  | ok f =>
    cases env.blob with
    | none => simp [errorResult]
    | some b =>
      by_cases hb : b > 0
      · simp [hb, createObjectURL_ne_empty]
      · simp [hb, errorResult]

/-- Claim C3 (code bug): for a null input the result's error is the caught
TypeError from the `console.log` of line 115, never the claimed
`"No file provided"` — that check (line 118) is dead code for null, because
`file.name` is read first. -/
theorem convert_null_file_logs_before_check (env : Env) :
    convertPdfToImage env none = errorResult nullNameAccessMessage ∧
    (convertPdfToImage env none).error ≠ some "No file provided" := by
  refine ⟨rfl, ?_⟩
  intro h
  rw [show convertPdfToImage env none = errorResult nullNameAccessMessage from rfl] at h
  exact absurd h (by decide)

/-- Claim C4: a PDF-typed non-empty input strictly above 50 MiB is rejected
with the size-limit error; an input of exactly 50 * 1024 * 1024 bytes passes
validation (the comparison of line 130 is strict). -/
theorem size_limit_boundary :
    (∀ (env : Env) (f : FileLike), f.type = "application/pdf" →
        f.size > 50 * 1024 * 1024 →
        convertPdfToImage env (some f) = errorResult "File is too large (max 50MB)") ∧
    (∀ f : FileLike, f.type = "application/pdf" → f.size = 50 * 1024 * 1024 →
        validateFile (some f) = Except.ok f) := by
  refine ⟨?_, ?_⟩
  · intro env f hty hsz
    have hz : f.size ≠ 0 := by omega
    simp [convertPdfToImage, convertSteps, validateFile, hty, hz, hsz]
  · intro f hty hsz
    have h1 : f.size ≠ 0 := by omega
    have h2 : ¬ (f.size > 50 * 1024 * 1024) := by omega
    simp [validateFile, hty, h1, h2]

/-- Witness for C4: one byte above the bound is rejected, the exact bound is
accepted by validation. -/
theorem size_limit_boundary_witness :
    convertPdfToImage envOk (some ⟨"big.pdf", "application/pdf", 52428801⟩) =
      errorResult "File is too large (max 50MB)" ∧
    validateFile (some ⟨"exact.pdf", "application/pdf", 52428800⟩) =
      Except.ok ⟨"exact.pdf", "application/pdf", 52428800⟩ :=
  ⟨size_limit_boundary.1 envOk ⟨"big.pdf", "application/pdf", 52428801⟩ rfl (by decide),
   size_limit_boundary.2 ⟨"exact.pdf", "application/pdf", 52428800⟩ rfl rfl⟩

/-- Claim C5: for a valid PDF input whose document has one page and whose
render and encode succeed, the result is the success shape: file named
`<stripped base>.png`, MIME `image/png`, size that of the (non-empty) blob,
a non-empty object URL, and no error. -/
theorem convert_success_shape (env : Env) (f : FileLike) (b : Nat)
    (hty : f.type = "application/pdf") (hsz : f.size ≠ 0)
    (hub : ¬ (f.size > 50 * 1024 * 1024))
    (hload : loadPdfJs env.stdImport env.buildImport env.cdnLoad = Except.ok ())
    (hab : env.arrayBuffer = Except.ok ())
    (hdoc : env.getDocument = Except.ok 1)
    (hpg : env.getPage = Except.ok ())
    (hctx : env.getContext = true)
    (hrender : env.render = Except.ok ())
    (hblob : env.blob = some b) (hb : 0 < b) :
    convertPdfToImage env (some f) =
      ⟨createObjectURL b, some ⟨outputName f.name, "image/png", b⟩, none⟩ ∧
    createObjectURL b ≠ "" ∧ b ≠ 0 := by
  refine ⟨?_, createObjectURL_ne_empty b, by omega⟩
  simp [convertPdfToImage, convertSteps, validateFile, hty, hsz, hub, hload, hab,
    hdoc, hpg, hctx, hrender, hblob, hb]

/-- Witness for C5: the sample file in the all-success environment. -/
theorem convert_success_shape_witness :
    convertPdfToImage envOk (some samplePdf) =
      ⟨createObjectURL 1, some ⟨outputName samplePdf.name, "image/png", 1⟩, none⟩ ∧
    createObjectURL 1 ≠ "" ∧ (1 : Nat) ≠ 0 :=
  convert_success_shape envOk samplePdf 1 rfl (by decide) (by decide)
    rfl rfl rfl rfl rfl rfl rfl (by decide)

/-- Claim C6: when every step up to the render succeeds but encoding yields a
null or empty blob, the call resolves (it does not throw) to the empty-blob
error result: empty `imageUrl`, null `file`, descriptive `error`. -/
theorem encode_failure_resolves (env : Env) (file : Option FileLike) (f : FileLike)
    (hok : convertSteps env file = Except.ok f)
    (hblob : env.blob = none ∨ env.blob = some 0) :
    convertPdfToImage env file =
      errorResult "Failed to create image blob or blob is empty" := by
  unfold convertPdfToImage
  rw [hok]
  rcases hblob with h | h <;> simp [h]

/-- Witness for C6: the sample file in the environment whose `toBlob` hands
back null. -/
theorem encode_failure_resolves_witness :
    convertPdfToImage envNoBlob (some samplePdf) =
      errorResult "Failed to create image blob or blob is empty" :=
  encode_failure_resolves envNoBlob (some samplePdf) samplePdf rfl (Or.inl rfl)

/-- Claim C7: the loader tries the bundled copy first — when the local load
succeeds the outcome is success and is independent of the CDN outcome (the
CDN is not attempted); when the local load fails and the CDN succeeds the
outcome is success; when both fail the outcome is the single combined error
naming both causes. -/
theorem loader_local_first :
    (∀ (a bi c c2 : Except String Unit),
        loadPdfJsLocal a bi = Except.ok () →
        loadPdfJs a bi c = Except.ok () ∧ loadPdfJs a bi c = loadPdfJs a bi c2) ∧
    (∀ (a bi : Except String Unit) (l : String),
        loadPdfJsLocal a bi = Except.error l →
        loadPdfJs a bi (Except.ok ()) = Except.ok ()) ∧
    (∀ (a bi : Except String Unit) (l c : String),
        loadPdfJsLocal a bi = Except.error l →
        loadPdfJs a bi (Except.error c) =
          Except.error ("PDF.js loading failed: Local: " ++ l ++ ", CDN: " ++ c)) := by
  refine ⟨?_, ?_, ?_⟩
  · intro a bi c c2 h
    simp [loadPdfJs, h]
  · intro a bi l h
    simp [loadPdfJs, h]
  · intro a bi l c h
    simp [loadPdfJs, h]

/-- Witness for C7: concrete load outcomes for each of the three cases; note
the local failure cause is the build-path import's error. -/
theorem loader_local_first_witness :
    (loadPdfJs (Except.ok ()) (Except.error "x") (Except.error "y") = Except.ok () ∧
      loadPdfJs (Except.ok ()) (Except.error "x") (Except.error "y") =
        loadPdfJs (Except.ok ()) (Except.error "x") (Except.ok ())) ∧
    loadPdfJs (Except.error "a") (Except.error "b") (Except.ok ()) = Except.ok () ∧
    loadPdfJs (Except.error "a") (Except.error "b") (Except.error "c") =
      Except.error ("PDF.js loading failed: Local: " ++ "b" ++ ", CDN: " ++ "c") :=
  ⟨loader_local_first.1 (Except.ok ()) (Except.error "x") (Except.error "y")
      (Except.ok ()) rfl,
   loader_local_first.2.1 (Except.error "a") (Except.error "b") "b" rfl,
   loader_local_first.2.2 (Except.error "a") (Except.error "b") "b" "c" rfl⟩

/-- Claim C8: a parsed document reporting zero pages yields the
`"PDF has no pages"` error result, for every page-fetch, context, render and
blob outcome — so no rendering is attempted. -/
theorem zero_pages_error (a bi cdn ab gp : Except String Unit)
    (gc : Bool) (r : Except String Unit) (bl : Option Nat) (f : FileLike)
    (hval : validateFile (some f) = Except.ok f)
    (hload : loadPdfJs a bi cdn = Except.ok ())
    (hab : ab = Except.ok ()) :
    convertPdfToImage ⟨a, bi, cdn, ab, Except.ok 0, gp, gc, r, bl⟩ (some f) =
      errorResult "PDF has no pages" := by
  simp [convertPdfToImage, convertSteps, hval, hload, hab]

/-- Witness for C8: the sample file against a zero-page document. -/
theorem zero_pages_error_witness :
    convertPdfToImage ⟨Except.ok (), Except.ok (), Except.ok (), Except.ok (),
        Except.ok 0, Except.ok (), true, Except.ok (), some 1⟩ (some samplePdf) =
      errorResult "PDF has no pages" :=
  zero_pages_error (Except.ok ()) (Except.ok ()) (Except.ok ()) (Except.ok ())
    (Except.ok ()) true (Except.ok ()) (some 1) samplePdf rfl rfl rfl

/-- Claim C9: single-flight of the CDN loader: from the cold state (no cached
library, no in-flight promise) the first call injects the script and memoizes
its promise; a second call arriving while that load is in flight receives the
very same pending promise (not a fresh one), leaves the state unchanged, and
injects no second script — at most one injection across the two calls. -/
theorem cdn_single_flight (f1 f2 : Nat) :
    loadPdfJsFromCDN ⟨none, none, false⟩ f1 =
      (CDNOutcome.pending f1, ⟨none, some f1, true⟩, true) ∧
    loadPdfJsFromCDN (loadPdfJsFromCDN ⟨none, none, false⟩ f1).2.1 f2 =
      (CDNOutcome.pending f1, ⟨none, some f1, true⟩, false) :=
  ⟨rfl, rfl⟩

/-- Helper: a lowercase `.pdf` suffix is stripped back off. -/
theorem stripPdfExt_append_pdf (s : String) : stripPdfExt (s ++ ".pdf") = s := by
  unfold stripPdfExt
  rw [show (s ++ ".pdf").data = s.data ++ ['.', 'p', 'd', 'f'] from rfl]
  simp only [List.map_append, List.reverse_append]
  split
  · rw [show ((((['.', 'p', 'd', 'f'] : List Char).reverse) ++ s.data.reverse).drop 4)
        = s.data.reverse from rfl, List.reverse_reverse]
  · rename_i h
    exact absurd rfl h

/-- Helper: an uppercase `.PDF` suffix is stripped back off. -/
theorem stripPdfExt_append_upper (s : String) : stripPdfExt (s ++ ".PDF") = s := by
  unfold stripPdfExt
  rw [show (s ++ ".PDF").data = s.data ++ ['.', 'P', 'D', 'F'] from rfl]
  simp only [List.map_append, List.reverse_append]
  split
  · rw [show ((((['.', 'P', 'D', 'F'] : List Char).reverse) ++ s.data.reverse).drop 4)
        = s.data.reverse from rfl, List.reverse_reverse]
  · rename_i h
    exact absurd rfl h

/-- Claim C10: the output-name computation strips exactly one
case-insensitive trailing `.pdf` before appending `.png`: any name ending in
`.pdf` or `.PDF` has the suffix replaced, a name lacking the suffix gets
`.png` appended whole, and a `.pdf` occurring mid-name is untouched. -/
theorem output_name_strips_only_trailing_pdf :
    (∀ s : String, outputName (s ++ ".pdf") = s ++ ".png") ∧
    (∀ s : String, outputName (s ++ ".PDF") = s ++ ".png") ∧
    outputName "doc" = "doc.png" ∧
    outputName "doc.txt" = "doc.txt.png" ∧
    outputName "my.pdf.bak" = "my.pdf.bak.png" ∧
    outputName "doc.pdf" = "doc.png" ∧
    outputName "doc.PDF" = "doc.png" := by
  refine ⟨?_, ?_, by decide, by decide, by decide, by decide, by decide⟩
  · intro s
    rw [outputName, stripPdfExt_append_pdf]
  · intro s
    rw [outputName, stripPdfExt_append_upper]
